import Mathlib

/-!
Verification development for the timdimm_tng seeing-analysis pipeline.

The definitions below are a shallow embedding of the core analysis code:

* `src/timdimm_tng/ser.py` — the SER cube loader (`load_ser_file` and its
  byte-reading helpers), modelled over a `List Nat` of file bytes; a Python
  exception (`struct.error`, `UnicodeDecodeError`, numpy reshape errors)
  is modelled as `Option.none`.
* `src/timdimm_tng/analyze_cube.py` — the aperture locator
  (`find_apertures`), the per-frame measurement functions (`dimm_calc`,
  `hdimm_calc`), the frame-tracking loop of `analyze_dimm_cube`, and the
  `seeing` conversion formula.

Calls into external libraries (photutils `ApertureStats` / `SourceFinder`,
astropy table segmentation) are modelled as oracle inputs: the embedded
functions take the values those library calls return as explicit arguments
and embed the repository logic that consumes them.
-/

namespace Timdimm

/-! ## SER loader (`ser.py`)

File bytes are a `List Nat`.  `fp.read(n)` returns *up to* `n` bytes near
the end of the file without raising, so byte extraction itself never fails;
`struct.unpack` raises when it receives fewer bytes than it needs, which is
where the length checks below come from. -/

/-- Model of `read_int`: `unpack("<I", fp.read(4))` — 4-byte little-endian unsigned
integer at `off`; `struct.unpack` raises if fewer than 4 bytes remain. -/
def read_int (bs : List Nat) (off : Nat) : Option Nat :=
  if off + 4 ≤ bs.length then
    some (bs.getD off 0 + 256 * bs.getD (off + 1) 0 +
      65536 * bs.getD (off + 2) 0 + 16777216 * bs.getD (off + 3) 0)
  else none

/-- Model of `read_long`: `unpack("<Q", fp.read(8))` — 8-byte little-endian unsigned
integer at `off`. -/
def read_long (bs : List Nat) (off : Nat) : Option Nat :=
  if off + 8 ≤ bs.length then
    some (bs.getD off 0 + 256 * bs.getD (off + 1) 0 +
      65536 * bs.getD (off + 2) 0 + 16777216 * bs.getD (off + 3) 0 +
      4294967296 * bs.getD (off + 4) 0 + 1099511627776 * bs.getD (off + 5) 0 +
      281474976710656 * bs.getD (off + 6) 0 +
      72057594037927936 * bs.getD (off + 7) 0)
  else none

/-- Model of `read_str`: `fp.read(len).decode().strip()`.  A short read near EOF does
not raise; `.decode()` raises `UnicodeDecodeError` on non-UTF-8 input.  The
model keeps the raw bytes (`.strip()` is immaterial to every claim) and
treats the ASCII range as decodable; bytes ≥ 128 are modelled as a decode
failure (valid multi-byte UTF-8 never occurs in SER headers). -/
def read_str (bs : List Nat) (off n : Nat) : Option (List Nat) :=
  let b := (bs.drop off).take n
  if b.all (fun c => c < 128) then some b else none

/-- Python `==` between an `int` and a member of a plain `enum.Enum`
subclass is always `False` (`Enum.__eq__` does not compare against ints, so
comparison falls back to object identity).  `load_ser_file` compares the
`int` read from bytes 18–21 against `Color_ID.RGB` and `Color_ID.BGR`
enum members, so this test can never succeed. -/
def int_eq_enum_member (_n : Nat) (_memberValue : Nat) : Bool :=
  false

/-- The dictionary `load_ser_file` builds (pixel data kept as raw bytes;
`filename` omitted — the model has no filesystem). -/
structure SerOutput where
  file_id : List Nat
  lu_id : Nat
  color_id : Nat
  littleendian : Nat
  im_width : Nat
  im_height : Nat
  pix_depth_per_plane : Nat
  nplanes : Nat
  bytes_per_pixel : Nat
  nframe : Nat
  observer : List Nat
  instrument : List Nat
  telescope : List Nat
  dateobs : Nat
  dateobs_utc : Nat
  data : List Nat
  frame_times : List Nat
  deriving Repr, DecidableEq

/-- The part of `load_ser_file` after the 14-byte file tag.  The file is
read strictly sequentially, so everything after the tag depends only on the
remaining bytes `rest = bs.drop 14`; offsets here are the original file
offsets minus 14 (`lu_id` 14→0, `color_id` 18→4, `littleendian` 22→8,
`im_width` 26→12, `im_height` 30→16, `pix_depth` 34→20, `nframe` 38→24,
`observer` 42→28, `instrument` 82→68, `telescope` 122→108, `dateobs`
162→148, `dateobs_utc` 170→156, pixel data 178→164).  `file_id` is filled
in by `load_ser_file`.  Notes:

* `output["nplanes"]` is assigned twice: first from `color_id < 100`
  (1 plane below 100, else 3), then unconditionally overwritten by the
  result of the `color_id in (Color_ID.RGB, Color_ID.BGR)` test — which,
  being an int-vs-Enum comparison, is always false (`int_eq_enum_member`),
  so the second assignment always stores 1.
* the pixel payload read is `fp.read(nframe * w * h * bpp)`; a short read
  does not raise but the following `np.frombuffer(...).reshape(...)`
  raises unless exactly the expected element count is present.
* the trailer is the remainder of the file; `np.frombuffer(dtype=uint64)`
  raises unless its length is a multiple of 8. -/
def load_ser_body (rest : List Nat) : Option SerOutput := do
  let lu_id ← read_int rest 0
  let color_id ← read_int rest 4
  -- first assignment: output["nplanes"] = 1 if color_id < 100 else 3
  -- (dead: unconditionally overwritten by the second assignment below)
  let _nplanes := if color_id < 100 then 1 else 3
  let littleendian ← read_int rest 8
  let im_width ← read_int rest 12
  let im_height ← read_int rest 16
  let pix_depth_per_plane ← read_int rest 20
  -- second assignment overwrites the first, mirroring the dict update:
  -- `if output["color_id"] in (Color_ID.RGB, Color_ID.BGR)`
  let nplanes :=
    if int_eq_enum_member color_id 100 || int_eq_enum_member color_id 101 then 3
    else 1
  let bytes_per_pixel := if pix_depth_per_plane < 9 then nplanes else 2 * nplanes
  let nframe ← read_int rest 24
  let observer ← read_str rest 28 40
  let instrument ← read_str rest 68 40
  let telescope ← read_str rest 108 40
  let dateobs ← read_long rest 148
  let dateobs_utc ← read_long rest 156
  let dataLen := nframe * im_width * im_height * bytes_per_pixel
  let data := (rest.drop 164).take dataLen
  -- np.frombuffer(..).reshape((nframe, h, w)) raises on a short buffer
  if data.length = dataLen then
    let trailer := rest.drop (164 + dataLen)
    if trailer.length % 8 = 0 then
      some {
        file_id := []
        lu_id := lu_id
        color_id := color_id
        littleendian := littleendian
        im_width := im_width
        im_height := im_height
        pix_depth_per_plane := pix_depth_per_plane
        nplanes := nplanes
        bytes_per_pixel := bytes_per_pixel
        nframe := nframe
        observer := observer
        instrument := instrument
        telescope := telescope
        dateobs := dateobs
        dateobs_utc := dateobs_utc
        data := data
        frame_times := trailer }
    else none
  else none

/-- Model of `load_ser_file` from `ser.py`: read and store the 14-byte file tag
(`.decode()` is the only thing that can fail there — the tag value is
never compared to anything), then parse the remainder of the file. -/
def load_ser_file (bs : List Nat) : Option SerOutput := do
  let file_id ← read_str bs 0 14
  (load_ser_body (bs.drop 14)).map fun o => { o with file_id := file_id }

/-- The 14 ASCII bytes of the `"LUCAM-RECORDER"` file-type literal. -/
def lucamRecorderBytes : List Nat :=
  [76, 85, 67, 65, 77, 45, 82, 69, 67, 79, 82, 68, 69, 82]

/-- A minimal well-formed SER header after the 14-byte tag: `lu_id = 0`,
given color id, `littleendian = 1`, `width = height = 0`, given pixel
depth, `nframe = 0`, zero-filled name fields and timestamps, no pixel
payload and no trailer. -/
def serHeaderRest (colorId pixDepth : Nat) : List Nat :=
  [0, 0, 0, 0] ++ [colorId, 0, 0, 0] ++ [1, 0, 0, 0] ++
  [0, 0, 0, 0] ++ [0, 0, 0, 0] ++ [pixDepth, 0, 0, 0] ++ [0, 0, 0, 0] ++
  List.replicate 120 0 ++ List.replicate 16 0

/-- An RGB cube file: color id 100, bit depth 8 per plane. -/
def rgbSerFile : List Nat := lucamRecorderBytes ++ serHeaderRest 100 8

/-- A cube file whose 14-byte tag is `"XXXXXXXXXXXXXX"` (byte 88 repeated)
instead of `"LUCAM-RECORDER"`, otherwise identical to a monochrome file. -/
def mismatchedSerFile : List Nat := List.replicate 14 88 ++ serHeaderRest 0 8

theorem read_str_tag (tag rest : List Nat) (h : tag.length = 14)
    (ha : (tag.all fun c => c < 128) = true) :
    read_str (tag ++ rest) 0 14 = some tag := by
  unfold read_str
  rw [List.drop_zero, List.take_left' h]
  simp [ha]

/-- C7 (amended): the loader never inspects the file-type tag: loading a
file with any
14-byte ASCII tag gives exactly the same result as loading the same file
with the expected `"LUCAM-RECORDER"` tag, apart from the stored
`file_id` bytes.  In particular a mismatched tag never causes a failure. -/
theorem ser_tag_not_validated (tag rest : List Nat) (h : tag.length = 14)
    (ha : (tag.all fun c => c < 128) = true) :
    load_ser_file (tag ++ rest) =
      (load_ser_file (lucamRecorderBytes ++ rest)).map
        fun o => { o with file_id := tag } := by
  have hL : lucamRecorderBytes.length = 14 := by decide
  have haL : (lucamRecorderBytes.all fun c => c < 128) = true := by decide
  unfold load_ser_file
  rw [read_str_tag tag rest h ha, read_str_tag _ rest hL haL,
    List.drop_left' h, List.drop_left' hL]
  cases load_ser_body rest with
  | none => rfl
  | some o => rfl

/-! ## Aperture locator (`find_apertures` in `analyze_cube.py`)

The image-processing front half of `find_apertures` (sigma-clipped image
statistics, Gaussian convolution, `SourceFinder` segmentation and
`SourceCatalog`) is external library code; it is modelled as an oracle
input: `none` when `SourceFinder` detects no sources (it then returns a
`None` segment map and the `SourceCatalog` constructor raises), and
`some t` with the catalog rows otherwise.  Here the repository logic that
consumes the catalog — sort by `max_value`, keep the `t[-brightest:]`
slice, re-sort by `xcentroid`, build `CircularAperture` — is embedded
over exact rationals. -/

/-- One row of the `SourceCatalog` table (only the columns
`find_apertures` touches). -/
structure Source where
  xcentroid : ℚ
  ycentroid : ℚ
  max_value : ℚ
  deriving DecidableEq, Repr

/-- Comparison key of `t.sort("max_value")`. -/
def mvLe (a b : Source) : Prop := a.max_value ≤ b.max_value

/-- Comparison key of `stars.sort("xcentroid")`. -/
def xLe (a b : Source) : Prop := a.xcentroid ≤ b.xcentroid

instance : DecidableRel mvLe :=
  fun a b => inferInstanceAs (Decidable (a.max_value ≤ b.max_value))

instance : DecidableRel xLe :=
  fun a b => inferInstanceAs (Decidable (a.xcentroid ≤ b.xcentroid))

instance : IsTotal Source mvLe := ⟨fun a b => le_total a.max_value b.max_value⟩

instance : IsTrans Source mvLe := ⟨fun _ _ _ hab hbc => le_trans hab hbc⟩

instance : IsTotal Source xLe := ⟨fun a b => le_total a.xcentroid b.xcentroid⟩

instance : IsTrans Source xLe := ⟨fun _ _ _ hab hbc => le_trans hab hbc⟩

/-- A `photutils` `CircularAperture`: a list of `(x, y)` centers and one
shared radius (rational coordinates for the locator model). -/
structure CircularApertureQ where
  positions : List (ℚ × ℚ)
  r : ℚ
  deriving DecidableEq, Repr

/-- Selection logic of `find_apertures`.  `t.sort("max_value")` sorts the
catalog ascending by peak value, `t[-brightest:]` keeps the (at most)
`brightest` last rows — a Python negative-index slice, which returns the
*whole* table when fewer rows exist (and, because `-0 == 0`, also when
`brightest = 0`) — and `stars.sort("xcentroid")` re-sorts the kept rows
ascending by x.  The subsequent `if stars is None` guard is dead code (a
table slice is never `None`), so no failure is possible past the catalog
stage.  The sort algorithm itself is immaterial to the claims; insertion
sort is used in the model. -/
def find_apertures (sources : Option (List Source)) (brightest : Nat)
    (ap_size : ℚ) : Option CircularApertureQ :=
  match sources with
  | none => none
  | some t =>
    let t1 := List.insertionSort mvLe t
    let stars := if brightest = 0 then t1 else t1.drop (t1.length - brightest)
    let stars2 := List.insertionSort xLe stars
    let positions := stars2.map fun s => (s.xcentroid, s.ycentroid)
    some ⟨positions, ap_size⟩

end Timdimm

/-- C7: the claim says a file whose first 14 bytes are not the expected
ASCII literal fails with a format error.  The code never checks the tag:
this file has tag `"XXXXXXXXXXXXXX"` and still loads into a cube. -/
theorem ser_tag_mismatch_cex :
    (Timdimm.load_ser_file Timdimm.mismatchedSerFile).map (fun o => o.file_id) =
      some (List.replicate 14 88) ∧
    List.replicate 14 88 ≠ Timdimm.lucamRecorderBytes := by
  constructor
  · set_option maxRecDepth 4000 in decide
  · decide

/-- C7 (amended): witness for `Timdimm.ser_tag_not_validated`, at the
concrete mismatched tag of 14 repeated `X` bytes. -/
theorem ser_tag_not_validated_witness :
    Timdimm.load_ser_file (List.replicate 14 88 ++ Timdimm.serHeaderRest 0 8) =
      (Timdimm.load_ser_file
        (Timdimm.lucamRecorderBytes ++ Timdimm.serHeaderRest 0 8)).map
        fun o => { o with file_id := List.replicate 14 88 } :=
  Timdimm.ser_tag_not_validated (List.replicate 14 88) (Timdimm.serHeaderRest 0 8)
    (by decide) (by decide)

/-- C1: the claim says a color/plane code ≥ 100 (RGB) makes the loader use
3 planes and `bytes_per_pixel = 3` at bit depth 8.  The code disagrees: the
`color_id in (Color_ID.RGB, Color_ID.BGR)` test compares an int against
plain Enum members and is always false, so an RGB file (color id 100,
depth 8) is loaded with `nplanes = 1` and `bytes_per_pixel = 1`. -/
theorem ser_rgb_nplanes_bug :
    (Timdimm.load_ser_file Timdimm.rgbSerFile).map
      (fun o => (o.color_id, o.nplanes, o.bytes_per_pixel)) = some (100, 1, 1) := by
  set_option maxRecDepth 4000 in decide

/-- C6: the claim says fewer than N qualifying sources make the locator
raise, and that it never returns fewer than N apertures.  With 2 detected
sources and `brightest = 3` the code instead returns a 2-aperture set:
the `t[-3:]` slice silently yields both rows and nothing raises. -/
theorem find_apertures_short_cex :
    (Timdimm.find_apertures
        (some [⟨1, 2, 10⟩, ⟨4, 5, 20⟩]) 3 7).map
      (fun a => a.positions.length) = some 2 ∧ 2 < 3 := by
  decide

/-- C6 (amended): the locator fails only when the detection stage finds no
sources at all (`None` segment map); with `m ≥ 1` catalog rows and
`brightest = N ≥ 1` it returns `min m N` apertures — silently short when
`m < N`. -/
theorem find_apertures_count (b : Nat) (r : ℚ) :
    Timdimm.find_apertures none b r = none ∧
    ∀ t : List Timdimm.Source,
      (Timdimm.find_apertures (some t) b r).map (fun a => a.positions.length) =
        some (if b = 0 then t.length else min t.length b) := by
  constructor
  · rfl
  · intro t
    simp only [Timdimm.find_apertures]
    show some _ = some _
    congr 1
    simp only [List.length_map, List.length_insertionSort]
    by_cases hb : b = 0
    · rw [if_pos hb, if_pos hb, List.length_insertionSort]
    · rw [if_neg hb, if_neg hb, List.length_drop, List.length_insertionSort]
      omega

/-- C8 (amended, locator part): whatever order the catalog rows arrive in,
the ApertureSet returned by `find_apertures` is sorted ascending by
x-centroid. -/
theorem find_apertures_sorted (src : Option (List Timdimm.Source)) (b : Nat)
    (r : ℚ) (aps : Timdimm.CircularApertureQ)
    (h : Timdimm.find_apertures src b r = some aps) :
    List.Sorted (· ≤ ·) (aps.positions.map Prod.fst) := by
  cases src with
  | none => exact absurd h (by simp [Timdimm.find_apertures])
  | some t =>
    simp only [Timdimm.find_apertures, Option.some_inj] at h
    subst h
    simp only [List.map_map]
    have hs : List.Sorted Timdimm.xLe
        (List.insertionSort Timdimm.xLe
          (if b = 0 then List.insertionSort Timdimm.mvLe t
           else (List.insertionSort Timdimm.mvLe t).drop
             ((List.insertionSort Timdimm.mvLe t).length - b))) :=
      List.sorted_insertionSort Timdimm.xLe _
    exact List.Pairwise.map _ (fun a c hac => hac) hs

/-- C8 (amended, locator part): witness for `find_apertures_sorted` — the
two sources are discovered in descending-x order, the returned set is
nevertheless ascending in x. -/
theorem find_apertures_sorted_witness :
    List.Sorted (· ≤ ·)
      ((Timdimm.CircularApertureQ.mk [(1, 2), (4, 5)] 7).positions.map
        Prod.fst) :=
  find_apertures_sorted (some [⟨4, 5, 20⟩, ⟨1, 2, 10⟩]) 2 7 _ (by decide)

namespace Timdimm

/-! ## Per-frame measurement (`dimm_calc`, `hdimm_calc`)

`ApertureStats(data, aps)` is a photutils call; its outputs — one centroid
and one integrated flux per aperture, plus the value of
`np.isfinite(ap_pos).all()` (a NaN flag has no counterpart in `ℝ`, so the
flag itself is part of the oracle) — are passed in as an `ApMeas`.  The
embedded functions contain the repository logic around those calls: the
validation tests, the baseline-distance computations against `0.5 * r`,
the construction of the updated `CircularAperture`, and the fallback call
to `find_apertures` (whose outcome — a fresh aperture set together with
the `ApertureStats` measured on it, or `none` when the locator raised —
is the `redetect` oracle argument). -/

noncomputable section

/-- A `photutils` `CircularAperture` with real coordinates: `(x, y)`
centers plus one shared radius. -/
structure CircularApertureR where
  positions : List (ℝ × ℝ)
  r : ℝ

/-- Oracle output of one `ApertureStats(data, aps)` call. -/
structure ApMeas where
  centroids : List (ℝ × ℝ)
  sums : List ℝ
  allFinite : Bool

/-- Model of `np.sqrt(np.dot(base.T, base))` for `base = q - p`. -/
def pdist (p q : ℝ × ℝ) : ℝ :=
  Real.sqrt ((q.1 - p.1) ^ 2 + (q.2 - p.2) ^ 2)

/-- The distances `[d_base1, d_base2, d_base3]`: `base1 = pos[1] - pos[0]`,
`base2 = pos[2] - pos[0]`, `base3 = pos[2] - pos[1]` (`ApertureStats`
returns one centroid per input aperture, so indices 0–2 are always in
range in 3-aperture mode; `getD` formalizes the indexing). -/
def base_dists (pos : List (ℝ × ℝ)) : List ℝ :=
  [pdist (pos.getD 0 (0, 0)) (pos.getD 1 (0, 0)),
   pdist (pos.getD 0 (0, 0)) (pos.getD 2 (0, 0)),
   pdist (pos.getD 1 (0, 0)) (pos.getD 2 (0, 0))]

/-- First validation of `hdimm_calc`: `np.isfinite(ap_pos).all() and
len(ap_pos) == 3 and np.all(ap_stats.sum > 0) and not overlapped`, where
`overlapped` is set when any baseline distance is below `0.5 * aps.r`. -/
def hdimm_initial_valid (m : ApMeas) (r : ℝ) : Prop :=
  m.allFinite = true ∧ m.centroids.length = 3 ∧ (∀ s ∈ m.sums, 0 < s) ∧
    ¬ ∃ d ∈ base_dists m.centroids, d < 0.5 * r

/-- First validation of `dimm_calc`: `np.isfinite(ap_pos).all() and
len(ap_pos) == 2 and np.all(ap_stats.sum > 0)`. -/
def dimm_initial_valid (m : ApMeas) : Prop :=
  m.allFinite = true ∧ m.centroids.length = 2 ∧ ∀ s ∈ m.sums, 0 < s

/-- The final test both calc functions apply before returning:
`not (not np.isfinite(ap_pos).all() or len(ap_pos) != n or
np.any(ap_stats.sum < 0))`.  Note the flux test here is `any(sum < 0)`,
not `all(sum > 0)`. -/
def calc_final_ok (n : Nat) (m : ApMeas) : Prop :=
  m.allFinite = true ∧ m.centroids.length = n ∧ ¬ ∃ s ∈ m.sums, s < 0

open Classical in
/-- Model of `hdimm_calc`: measure at the current apertures; if the initial
validation passes, adopt the measured centroids as `new_aps` (same
radius); otherwise fall back to `find_apertures` (`redetect`).  Either
way the final check `calc_final_ok` gates the returned
`(new_aps, [d_base1, d_base2, d_base3], ap_stats.sum)`. -/
def hdimm_calc (aps : CircularApertureR) (m0 : ApMeas)
    (redetect : Option (CircularApertureR × ApMeas)) :
    Option (CircularApertureR × List ℝ × List ℝ) :=
  if hdimm_initial_valid m0 aps.r then
    if calc_final_ok 3 m0 then
      some (⟨m0.centroids, aps.r⟩, base_dists m0.centroids, m0.sums)
    else none
  else
    match redetect with
    | none => none
    | some (naps, m1) =>
      if calc_final_ok 3 m1 then some (naps, base_dists m1.centroids, m1.sums)
      else none

open Classical in
/-- Shared tail of `dimm_calc`: final check, then
`baseline = ap_pos[1] - ap_pos[0]`, returning
`(new_aps, [dist_baseline], ap_stats.sum)`. -/
def dimm_finish (naps : CircularApertureR) (m : ApMeas) :
    Option (CircularApertureR × List ℝ × List ℝ) :=
  if calc_final_ok 2 m then
    some (naps, [pdist (m.centroids.getD 0 (0, 0)) (m.centroids.getD 1 (0, 0))],
      m.sums)
  else none

open Classical in
/-- Model of `dimm_calc`: the 2-aperture analogue of `hdimm_calc` (no overlap test). -/
def dimm_calc (aps : CircularApertureR) (m0 : ApMeas)
    (redetect : Option (CircularApertureR × ApMeas)) :
    Option (CircularApertureR × List ℝ × List ℝ) :=
  if dimm_initial_valid m0 then
    dimm_finish ⟨m0.centroids, aps.r⟩ m0
  else
    match redetect with
    | none => none
    | some (naps, m1) => dimm_finish naps m1

/-! ## Frame-tracking loop of `analyze_dimm_cube`

Per frame `i`, the loop calls `dimm_calc(frame, apertures)` (or
`hdimm_calc`); the value that call returns for each frame of the run is
the per-frame oracle entry `outcomes[i] : Option Meas`.  The loop state
(lines 327–351 of `analyze_cube.py`) is embedded explicitly. -/

/-- What a successful calc call returns:
`apertures, ap_distances, ap_fluxes = dimm_meas`. -/
abbrev Meas := CircularApertureR × List ℝ × List ℝ

/-- Model of `apertures.positions.mean(axis=0)`. -/
def positions_mean (l : List (ℝ × ℝ)) : ℝ × ℝ :=
  ((l.map Prod.fst).sum / l.length, (l.map Prod.snd).sum / l.length)

/-- Mutable loop state: `apertures`, the `baselines`, `positions`
and `fluxes` accumulator lists, and the bad-frame counter `nbad`. -/
structure TrackState where
  apertures : CircularApertureR
  baselines : List (List ℝ)
  positions : List (ℝ × ℝ)
  fluxes : List (List ℝ)
  nbad : Nat

/-- State before the first frame: the initial apertures from
`find_apertures` on the mean of the first 5 frames, empty series,
`nbad = 0`. -/
def init_state (aps : CircularApertureR) : TrackState :=
  ⟨aps, [], [], [], 0⟩

/-- One loop iteration: on `some` measurement, adopt the returned
apertures and append to all three series; on `none`, only `nbad += 1`.
Then `if nbad > 100: raise Exception("Hit 100 bad frame limit.")`,
modelled as `none`. -/
def track_step (meas : Option Meas) (st : TrackState) : Option TrackState :=
  let st' :=
    match meas with
    | some (naps, dists, fl) =>
        { apertures := naps,
          baselines := st.baselines ++ [dists],
          positions := st.positions ++ [positions_mean naps.positions],
          fluxes := st.fluxes ++ [fl],
          nbad := st.nbad }
    | none => { st with nbad := st.nbad + 1 }
  if st'.nbad > 100 then none else some st'

/-- The loop `for i in range(nframes)`: run `track_step` over the per-frame
outcomes; an abort (`none`) propagates and discards everything. -/
def track_run (st : TrackState) : List (Option Meas) → Option TrackState
  | [] => some st
  | o :: rest =>
    match track_step o st with
    | none => none
    | some st' => track_run st' rest

/-- Number of frames whose calc call failed validation. -/
def count_bad (outcomes : List (Option Meas)) : Nat :=
  outcomes.countP (fun o => o.isNone)

end

end Timdimm

namespace Timdimm

theorem track_step_none (st : TrackState) :
    track_step none st =
      if st.nbad + 1 > 100 then none else some { st with nbad := st.nbad + 1 } :=
  rfl

theorem track_step_some (st : TrackState) (naps : CircularApertureR)
    (dists fl : List ℝ) :
    track_step (some (naps, dists, fl)) st =
      if st.nbad > 100 then none
      else some
        { apertures := naps,
          baselines := st.baselines ++ [dists],
          positions := st.positions ++ [positions_mean naps.positions],
          fluxes := st.fluxes ++ [fl],
          nbad := st.nbad } :=
  rfl

theorem count_bad_cons_some (m : Meas) (rest : List (Option Meas)) :
    count_bad (some m :: rest) = count_bad rest := by
  simp [count_bad]

theorem count_bad_cons_none (rest : List (Option Meas)) :
    count_bad (none :: rest) = count_bad rest + 1 := by
  simp [count_bad, List.countP_cons]

theorem count_bad_le_length (outcomes : List (Option Meas)) :
    count_bad outcomes ≤ outcomes.length :=
  List.countP_le_length _

theorem track_run_ok :
    ∀ (outcomes : List (Option Meas)) (st : TrackState),
      st.nbad + count_bad outcomes ≤ 100 →
      ∃ st', track_run st outcomes = some st' ∧
        st'.nbad = st.nbad + count_bad outcomes ∧
        st'.baselines.length =
          st.baselines.length + (outcomes.length - count_bad outcomes) ∧
        st'.positions.length =
          st.positions.length + (outcomes.length - count_bad outcomes) ∧
        st'.fluxes.length =
          st.fluxes.length + (outcomes.length - count_bad outcomes)
  | [], st, _ => ⟨st, rfl, by simp [count_bad]⟩
  | some m :: rest, st, h => by
    obtain ⟨naps, dists, fl⟩ := m
    have hcount := count_bad_cons_some (naps, dists, fl) rest
    have hnb : ¬ st.nbad > 100 := by
      rw [hcount] at h
      omega
    have hrest : count_bad rest ≤ rest.length := count_bad_le_length rest
    rw [track_run, track_step_some, if_neg hnb]
    obtain ⟨st', hrun, hnbad, hb, hp, hf⟩ :=
      track_run_ok rest
        { apertures := naps,
          baselines := st.baselines ++ [dists],
          positions := st.positions ++ [positions_mean naps.positions],
          fluxes := st.fluxes ++ [fl],
          nbad := st.nbad }
        (by dsimp only; rw [hcount] at h; exact h)
    dsimp only at hnbad hb hp hf
    refine ⟨st', hrun, ?_, ?_, ?_, ?_⟩ <;>
      simp [hnbad, hb, hp, hf, hcount] <;> omega
  | none :: rest, st, h => by
    have hcount := count_bad_cons_none rest
    have hnb : ¬ st.nbad + 1 > 100 := by
      rw [hcount] at h
      omega
    have hrest : count_bad rest ≤ rest.length := count_bad_le_length rest
    rw [track_run, track_step_none, if_neg hnb]
    obtain ⟨st', hrun, hnbad, hb, hp, hf⟩ :=
      track_run_ok rest { st with nbad := st.nbad + 1 }
        (by dsimp only; rw [hcount] at h; omega)
    dsimp only at hnbad hb hp hf
    refine ⟨st', hrun, ?_, ?_, ?_, ?_⟩ <;>
      simp [hnbad, hb, hp, hf, hcount] <;> omega

theorem track_run_abort :
    ∀ (outcomes : List (Option Meas)) (st : TrackState),
      st.nbad ≤ 100 → 100 < st.nbad + count_bad outcomes →
      track_run st outcomes = none
  | [], _, _, h2 => by
    simp [count_bad] at h2
    omega
  | some m :: rest, st, h1, h2 => by
    obtain ⟨naps, dists, fl⟩ := m
    have hcount := count_bad_cons_some (naps, dists, fl) rest
    rw [track_run, track_step_some, if_neg (by omega)]
    exact track_run_abort rest _ h1 (by rw [hcount] at h2; exact h2)
  | none :: rest, st, h1, h2 => by
    have hcount := count_bad_cons_none rest
    rw [track_run, track_step_none]
    by_cases hb : st.nbad + 1 > 100
    · rw [if_pos hb]
    · rw [if_neg hb]
      exact track_run_abort rest _ (by dsimp only; omega)
        (by dsimp only; rw [hcount] at h2; omega)

end Timdimm

/-- C3: the run aborts (discarding everything) exactly when the
cumulative number of invalid frames exceeds 100; otherwise it completes
and its final bad-frame count equals the number of invalid frames. -/
theorem bad_frame_budget (aps : Timdimm.CircularApertureR)
    (outcomes : List (Option Timdimm.Meas)) :
    (100 < Timdimm.count_bad outcomes →
      Timdimm.track_run (Timdimm.init_state aps) outcomes = none) ∧
    (Timdimm.count_bad outcomes ≤ 100 →
      ∃ st, Timdimm.track_run (Timdimm.init_state aps) outcomes = some st ∧
        st.nbad = Timdimm.count_bad outcomes) := by
  constructor
  · intro h
    exact Timdimm.track_run_abort outcomes _ (by simp [Timdimm.init_state])
      (by simp [Timdimm.init_state]; omega)
  · intro h
    obtain ⟨st, hrun, hnbad, _⟩ :=
      Timdimm.track_run_ok outcomes (Timdimm.init_state aps)
        (by simp [Timdimm.init_state]; omega)
    exact ⟨st, hrun, by simp [Timdimm.init_state] at hnbad; exact hnbad⟩

/-- C3: witness for `bad_frame_budget` — a cube whose calc calls fail on
exactly 101 frames aborts, one failing on exactly 100 frames completes
with bad-frame count 100. -/
theorem bad_frame_budget_witness :
    Timdimm.track_run
      (Timdimm.init_state ⟨[(0, 0), (50, 0)], 11⟩)
      (List.replicate 101 none) = none ∧
    ∃ st, Timdimm.track_run
        (Timdimm.init_state ⟨[(0, 0), (50, 0)], 11⟩)
        (List.replicate 100 none) = some st ∧
      st.nbad = Timdimm.count_bad (List.replicate 100 none) := by
  have h101 : Timdimm.count_bad (List.replicate 101 none) = 101 := by
    simp [Timdimm.count_bad]
  have h100 : Timdimm.count_bad (List.replicate 100 none) = 100 := by
    simp [Timdimm.count_bad]
  exact ⟨(bad_frame_budget _ _).1 (by omega),
    (bad_frame_budget _ _).2 (by omega)⟩

/-- C2: the claim says the output series always has length equal to the
frame count, with invalid frames present as invalid entries.  For a
1-frame cube whose only frame fails validation, the loop instead appends
nothing: the run completes with empty series (length 0, not 1) and only
the counter records the bad frame. -/
theorem tracker_series_length_cex :
    Timdimm.track_run
        (Timdimm.init_state ⟨[(0, 0), (40, 0)], 11⟩) [none] =
      some ⟨⟨[(0, 0), (40, 0)], 11⟩, [], [], [], 1⟩ ∧
    ([] : List (List ℝ)).length ≠ [(none : Option Timdimm.Meas)].length := by
  exact ⟨rfl, by decide⟩

/-- C2 (amended): the series produced by the loop omit invalid frames:
on a completed run, each of the baselines/positions/fluxes series has
length `frame count − bad-frame count`, and the bad-frame count equals
the number of frames that failed validation. -/
theorem tracker_series_length (aps : Timdimm.CircularApertureR)
    (outcomes : List (Option Timdimm.Meas)) (st : Timdimm.TrackState)
    (h : Timdimm.track_run (Timdimm.init_state aps) outcomes = some st) :
    st.nbad = Timdimm.count_bad outcomes ∧
    st.baselines.length = outcomes.length - st.nbad ∧
    st.positions.length = outcomes.length - st.nbad ∧
    st.fluxes.length = outcomes.length - st.nbad := by
  by_cases hc : Timdimm.count_bad outcomes ≤ 100
  · obtain ⟨st', hrun, hnbad, hb, hp, hf⟩ :=
      Timdimm.track_run_ok outcomes (Timdimm.init_state aps)
        (by simp [Timdimm.init_state]; omega)
    rw [h] at hrun
    obtain rfl : st = st' := by injection hrun
    simp [Timdimm.init_state] at hnbad hb hp hf
    refine ⟨hnbad, ?_, ?_, ?_⟩ <;> omega
  · exfalso
    have habort := Timdimm.track_run_abort outcomes (Timdimm.init_state aps)
      (by simp [Timdimm.init_state]) (by simp [Timdimm.init_state]; omega)
    rw [h] at habort
    exact Option.noConfusion habort

/-- C2 (amended): witness for `tracker_series_length` at a concrete
1-frame run with one invalid frame. -/
theorem tracker_series_length_witness :
    (⟨⟨[(3, 0), (9, 0)], 11⟩, [], [], [], 1⟩ : Timdimm.TrackState).nbad =
      Timdimm.count_bad [none] ∧
    (⟨⟨[(3, 0), (9, 0)], 11⟩, [], [], [], 1⟩ : Timdimm.TrackState).baselines.length =
      [(none : Option Timdimm.Meas)].length - 1 ∧
    (⟨⟨[(3, 0), (9, 0)], 11⟩, [], [], [], 1⟩ : Timdimm.TrackState).positions.length =
      [(none : Option Timdimm.Meas)].length - 1 ∧
    (⟨⟨[(3, 0), (9, 0)], 11⟩, [], [], [], 1⟩ : Timdimm.TrackState).fluxes.length =
      [(none : Option Timdimm.Meas)].length - 1 :=
  tracker_series_length ⟨[(3, 0), (9, 0)], 11⟩ [none] _ rfl

/-- C9: per-frame effect on the tracker state.  If the measurement of the
frame is invalid (calc returned `None`, i.e. not valid even after
the re-detection fallback), the aperture set — centers and radius — and
all three series are left untouched and only the bad-frame counter is
incremented; the aperture set is replaced by the measured one exactly
when the measurement validated. -/
theorem track_step_effect (st : Timdimm.TrackState) (m : Timdimm.Meas) :
    (∀ st', Timdimm.track_step none st = some st' →
      st'.apertures = st.apertures ∧ st'.nbad = st.nbad + 1 ∧
      st'.baselines = st.baselines ∧ st'.positions = st.positions ∧
      st'.fluxes = st.fluxes) ∧
    (∀ st', Timdimm.track_step (some m) st = some st' →
      st'.apertures = m.1 ∧ st'.nbad = st.nbad) := by
  constructor
  · intro st' h
    rw [Timdimm.track_step_none] at h
    by_cases hb : st.nbad + 1 > 100
    · rw [if_pos hb] at h
      exact Option.noConfusion h
    · rw [if_neg hb] at h
      obtain rfl : ({ st with nbad := st.nbad + 1 } : Timdimm.TrackState) = st' := by
        injection h
      exact ⟨rfl, rfl, rfl, rfl, rfl⟩
  · intro st' h
    obtain ⟨naps, dists, fl⟩ := m
    rw [Timdimm.track_step_some] at h
    by_cases hb : st.nbad > 100
    · rw [if_pos hb] at h
      exact Option.noConfusion h
    · rw [if_neg hb] at h
      refine ⟨?_, ?_⟩ <;> {
        obtain rfl := (Option.some_inj.mp h)
        rfl
      }

/-- C9: witness for `track_step_effect` — one invalid frame from the
initial state leaves apertures and series unchanged and sets `nbad = 1`. -/
theorem track_step_effect_witness :
    (⟨⟨[(7, 1), (20, 1)], 15⟩, [], [], [], 1⟩ : Timdimm.TrackState).apertures =
      (Timdimm.init_state ⟨[(7, 1), (20, 1)], 15⟩).apertures ∧
    (⟨⟨[(7, 1), (20, 1)], 15⟩, [], [], [], 1⟩ : Timdimm.TrackState).nbad =
      (Timdimm.init_state ⟨[(7, 1), (20, 1)], 15⟩).nbad + 1 ∧
    (⟨⟨[(7, 1), (20, 1)], 15⟩, [], [], [], 1⟩ : Timdimm.TrackState).baselines =
      (Timdimm.init_state ⟨[(7, 1), (20, 1)], 15⟩).baselines ∧
    (⟨⟨[(7, 1), (20, 1)], 15⟩, [], [], [], 1⟩ : Timdimm.TrackState).positions =
      (Timdimm.init_state ⟨[(7, 1), (20, 1)], 15⟩).positions ∧
    (⟨⟨[(7, 1), (20, 1)], 15⟩, [], [], [], 1⟩ : Timdimm.TrackState).fluxes =
      (Timdimm.init_state ⟨[(7, 1), (20, 1)], 15⟩).fluxes :=
  (track_step_effect (Timdimm.init_state ⟨[(7, 1), (20, 1)], 15⟩)
    (⟨[(0, 0)], 1⟩, [], [])).1 _ rfl

/-- C4: the claim says the fresh (re-detected) measurement is validated
against the same criteria as the initial one.  It is not: here the fresh
measurement has an integrated flux of exactly 0 (not strictly positive)
and all three baseline distances far below `0.5 × r`, so it fails the
initial-validation criteria — yet `hdimm_calc` accepts it, because the
final check only rejects strictly negative fluxes and never re-applies
the overlap test. -/
theorem hdimm_revalidation_cex :
    Timdimm.hdimm_calc ⟨[(0, 0), (10, 0), (20, 0)], 14⟩
        ⟨[(0, 0), (10, 0), (20, 0)], [1, 1, 1], false⟩
        (some (⟨[(0, 0), (1, 0), (2, 0)], 14⟩,
          ⟨[(0, 0), (1, 0), (2, 0)], [0, 1, 1], true⟩)) =
      some (⟨[(0, 0), (1, 0), (2, 0)], 14⟩,
        Timdimm.base_dists [(0, 0), (1, 0), (2, 0)], [0, 1, 1]) ∧
    ¬ Timdimm.hdimm_initial_valid ⟨[(0, 0), (1, 0), (2, 0)], [0, 1, 1], true⟩
        (⟨[(0, 0), (10, 0), (20, 0)], 14⟩ : Timdimm.CircularApertureR).r := by
  have hfin : Timdimm.calc_final_ok 3
      ⟨[(0, 0), (1, 0), (2, 0)], [0, 1, 1], true⟩ := by
    refine ⟨rfl, rfl, ?_⟩
    rintro ⟨s, hs, hlt⟩
    simp at hs
    rcases hs with rfl | rfl | rfl <;> norm_num at hlt
  constructor
  · simp only [Timdimm.hdimm_calc]
    rw [if_neg (by simp [Timdimm.hdimm_initial_valid])]
    exact if_pos hfin
  · rintro ⟨_, _, hflux, _⟩
    have h0 := hflux 0 (by simp)
    norm_num at h0

/-- C4 (amended): when the initial measurement fails validation and the
locator returns a fresh aperture set, the fresh measurement is accepted
if and only if it has all centroids finite, exactly 3 apertures, and no
strictly negative flux — zero fluxes pass, and the pairwise-overlap rule
is not re-applied. -/
theorem hdimm_revalidation (aps : Timdimm.CircularApertureR)
    (m0 m1 : Timdimm.ApMeas) (naps : Timdimm.CircularApertureR)
    (h : ¬ Timdimm.hdimm_initial_valid m0 aps.r) :
    Timdimm.hdimm_calc aps m0 (some (naps, m1)) ≠ none ↔
      (m1.allFinite = true ∧ m1.centroids.length = 3 ∧
        ¬ ∃ s ∈ m1.sums, s < 0) := by
  simp only [Timdimm.hdimm_calc, if_neg h]
  by_cases hf : Timdimm.calc_final_ok 3 m1
  · rw [if_pos hf]
    exact ⟨fun _ => hf, fun _ => Option.some_ne_none _⟩
  · rw [if_neg hf]
    exact ⟨fun hc => absurd rfl hc, fun hr => absurd hr hf⟩

/-- C4 (amended): witness for `hdimm_revalidation` at a concrete invalid
initial measurement and a concrete fresh measurement. -/
theorem hdimm_revalidation_witness :
    Timdimm.hdimm_calc ⟨[(0, 0), (30, 0), (60, 0)], 7⟩
        ⟨[(0, 0), (30, 0), (60, 0)], [2, 2, 2], false⟩
        (some (⟨[(1, 0), (31, 0), (61, 0)], 7⟩,
          ⟨[(1, 0), (31, 0), (61, 0)], [2, 3, 4], true⟩)) ≠ none ↔
      ((⟨[(1, 0), (31, 0), (61, 0)], [2, 3, 4], true⟩ :
          Timdimm.ApMeas).allFinite = true ∧
       (⟨[(1, 0), (31, 0), (61, 0)], [2, 3, 4], true⟩ :
          Timdimm.ApMeas).centroids.length = 3 ∧
       ¬ ∃ s ∈ (⟨[(1, 0), (31, 0), (61, 0)], [2, 3, 4], true⟩ :
          Timdimm.ApMeas).sums, s < 0) :=
  hdimm_revalidation _ _ _ _ (by simp [Timdimm.hdimm_initial_valid])

/-- C8: the claim also asserts the `ApertureSet` carried by the Tracker
stays sorted ascending by x after every update.  It does not: here the
current set is sorted (x = 2 then 11), the frame measurement at those
apertures is fully valid (finite, 2 centroids, positive fluxes), but its
measured centroids have crossed in x — and `dimm_calc` adopts them in
aperture order without re-sorting, returning an x-descending set. -/
theorem tracker_unsorted_cex :
    Timdimm.dimm_calc ⟨[(2, 0), (11, 0)], 11⟩
        ⟨[(12, 0), (3, 0)], [5, 5], true⟩ none =
      some (⟨[(12, 0), (3, 0)], 11⟩,
        [Timdimm.pdist ((12 : ℝ), (0 : ℝ)) ((3 : ℝ), (0 : ℝ))], [5, 5]) ∧
    List.Sorted (· ≤ ·)
      ((⟨[(2, 0), (11, 0)], 11⟩ :
        Timdimm.CircularApertureR).positions.map Prod.fst) ∧
    ¬ List.Sorted (· ≤ ·)
      ((⟨[(12, 0), (3, 0)], 11⟩ :
        Timdimm.CircularApertureR).positions.map Prod.fst) := by
  refine ⟨?_, ?_, ?_⟩
  · have hvalid : Timdimm.dimm_initial_valid
        ⟨[(12, 0), (3, 0)], [5, 5], true⟩ := by
      refine ⟨rfl, rfl, ?_⟩
      intro s hs
      simp at hs
      rcases hs with rfl | rfl <;> norm_num
    have hfin : Timdimm.calc_final_ok 2 ⟨[(12, 0), (3, 0)], [5, 5], true⟩ := by
      refine ⟨rfl, rfl, ?_⟩
      rintro ⟨s, hs, hlt⟩
      simp at hs
      rcases hs with rfl | rfl <;> norm_num at hlt
    simp only [Timdimm.dimm_calc]
    rw [if_pos hvalid]
    simp only [Timdimm.dimm_finish]
    exact if_pos hfin
  · rw [show ((⟨[(2, 0), (11, 0)], 11⟩ :
        Timdimm.CircularApertureR).positions.map Prod.fst) =
        [(2 : ℝ), 11] from rfl, List.sorted_cons]
    refine ⟨?_, List.sorted_singleton _⟩
    intro b hb
    simp at hb
    rw [hb]
    norm_num
  · intro hsorted
    rw [show ((⟨[(12, 0), (3, 0)], 11⟩ :
        Timdimm.CircularApertureR).positions.map Prod.fst) =
        [(12 : ℝ), 3] from rfl, List.sorted_cons] at hsorted
    have h12 := hsorted.1 3 (by simp)
    norm_num at h12

namespace Timdimm

/-! ## Seeing conversion (`seeing` in `analyze_cube.py`) and the
per-baseline step of `analyze_dimm_cube`

Real-valued formulas; astropy unit handling becomes explicit conversion
factors: `pixel_scale.to(u.radian).value` multiplies the arcsec pixel
scale by `π/648000`, `Quantity.to(u.arcsec)` multiplies the radian result
by `648000/π`, and `(baseline/aperture_diameter).decompose()` and
`(aperture_diameter/wavelength).decompose()` are plain ratios of
quantities expressed in a common length unit.  Python `** y` on floats
is `Real.rpow`; `** 2.0` on a (possibly negative) float equals squaring,
embedded as `^ (2 : ℕ)`. -/

noncomputable section

/-- One `u.arcsec` in radians: `π / (180 * 3600)`. -/
def arcsec_to_radian : ℝ := Real.pi / 648000

/-- One radian in arcseconds: `180 * 3600 / π`. -/
def radian_to_arcsec : ℝ := 648000 / Real.pi

/-- Coefficient `k["longitudinal"] = 0.364 * (1 - 0.532 * b**(-1/3) - 0.024 * b**(-7/3))`. -/
def k_longitudinal (b : ℝ) : ℝ :=
  0.364 * (1 - 0.532 * b ^ (-(1 : ℝ) / 3) - 0.024 * b ^ ((-7 : ℝ) / 3))

/-- Coefficient `k["transverse"] = 0.364 * (1 - 0.798 * b**(-1/3) + 0.018 * b**(-7/3))`. -/
def k_transverse (b : ℝ) : ℝ :=
  0.364 * (1 - 0.798 * b ^ (-(1 : ℝ) / 3) + 0.018 * b ^ ((-7 : ℝ) / 3))

/-- The `k` dictionary lookup: `if direction not in k: raise ValueError`. -/
def seeing_k (direction : String) (b : ℝ) : Option ℝ :=
  if direction = "longitudinal" then some (k_longitudinal b)
  else if direction = "transverse" then some (k_transverse b)
  else none

/-- The body of `seeing()` once `k[direction]` is in hand:
`sigma` is rescaled to radians (`sigma * pixel_scale.to(u.radian)`),
squared into `variance`, and
`0.98 * (aperture_diameter/wavelength)**0.2 * (variance/k)**0.6` radians
are converted to arcseconds. -/
def seeing_from_k (sigma aperture_diameter wavelength pixel_scale k : ℝ) : ℝ :=
  0.98 * (aperture_diameter / wavelength) ^ (0.2 : ℝ) *
    ((sigma * (pixel_scale * arcsec_to_radian)) ^ 2 / k) ^ (0.6 : ℝ) *
    radian_to_arcsec

/-- Model of `seeing(sigma, baseline, aperture_diameter, wavelength,
pixel_scale, direction)` with `b = baseline / aperture_diameter`. -/
def seeing (sigma baseline aperture_diameter wavelength pixel_scale : ℝ)
    (direction : String) : Option ℝ :=
  (seeing_k direction (baseline / aperture_diameter)).map
    (seeing_from_k sigma aperture_diameter wavelength pixel_scale)

/-- Model of `np.mean`. -/
def list_mean (l : List ℝ) : ℝ := l.sum / l.length

/-- Model of `np.var` (population variance, `ddof = 0`, the astropy default). -/
def list_var (l : List ℝ) : ℝ := list_mean (l.map fun x => (x - list_mean l) ^ 2)

/-- Model of `np.std`. -/
def list_std (l : List ℝ) : ℝ := Real.sqrt (list_var l)

open Classical in
/-- Model of `np.median`: middle element of the sorted data, or the mean of the
two middle elements for even length. -/
def list_median (l : List ℝ) : ℝ :=
  let s := l.insertionSort (· ≤ ·)
  if l.length % 2 = 1 then s.getD (l.length / 2) 0
  else (s.getD (l.length / 2 - 1) 0 + s.getD (l.length / 2) 0) / 2

open Classical in
/-- One iteration of astropy `SigmaClip(sigma=10, cenfunc="median",
stdfunc="std")`: keep the values within `median ± 10 * std` of the
currently kept values. -/
def clip_step (l : List ℝ) : List ℝ :=
  let center := list_median l
  let std := list_std l
  l.filter fun x => decide (center - 10 * std ≤ x ∧ x ≤ center + 10 * std)

/-- The std returned by `stats.sigma_clipped_stats(baseline, sigma=10,
maxiters=10)`: astropy clips until nothing changes or 10 iterations are
done; since `clip_step` is a no-op once it reaches a fixpoint, that is
exactly 10 applications of `clip_step`. -/
def sigma_clipped_std (l : List ℝ) : ℝ := list_std (clip_step^[10] l)

/-- One entry of `seeing_vals` in `analyze_dimm_cube`:
`seeing_func(baseline_std) / airmass**0.6`, where `baseline_std` is the
10-sigma-clipped std of the per-frame baseline-length series and the
seeing functions used (`timdimm_seeing`, `massdimm_seeing`, plain
`seeing`) all use the default longitudinal direction. -/
def analyze_baseline_seeing (series : List ℝ)
    (baseline aperture_diameter wavelength pixel_scale airmass : ℝ) : Option ℝ :=
  (seeing (sigma_clipped_std series) baseline aperture_diameter wavelength
      pixel_scale "longitudinal").map
    fun s => s / airmass ^ (0.6 : ℝ)

/-- The closed form of claim C5, written out from the spec text: with
`b = baseline/aperture_diameter`,
`k = 0.364(1 − 0.532 b^(−1/3) − 0.024 b^(−7/3))` and variance the square
of the sigma-clipped standard deviation of the series converted to
radians via the pixel scale, the per-baseline seeing is
`0.98 (aperture_diameter/wavelength)^0.2 (variance/k)^0.6` radians,
converted to arcseconds and divided by `airmass^0.6`. -/
def spec_baseline_seeing (series : List ℝ)
    (baseline aperture_diameter wavelength pixel_scale airmass : ℝ) : ℝ :=
  let b := baseline / aperture_diameter
  let k := 0.364 * (1 - 0.532 * b ^ (-(1 : ℝ) / 3) - 0.024 * b ^ ((-7 : ℝ) / 3))
  let variance := (sigma_clipped_std series * (pixel_scale * arcsec_to_radian)) ^ 2
  0.98 * (aperture_diameter / wavelength) ^ (0.2 : ℝ) * (variance / k) ^ (0.6 : ℝ) *
    radian_to_arcsec / airmass ^ (0.6 : ℝ)

end

end Timdimm

/-- C5: for every baseline series and configuration, the per-baseline
value computed by `analyze_dimm_cube` (the `seeing()` of the code applied to
the sigma-clipped std, then divided by `airmass**0.6`) equals the
closed-form expression of the claim. -/
theorem baseline_seeing_formula (series : List ℝ)
    (baseline aperture_diameter wavelength pixel_scale airmass : ℝ) :
    Timdimm.analyze_baseline_seeing series baseline aperture_diameter
        wavelength pixel_scale airmass =
      some (Timdimm.spec_baseline_seeing series baseline aperture_diameter
        wavelength pixel_scale airmass) := by
  simp only [Timdimm.analyze_baseline_seeing, Timdimm.seeing, Timdimm.seeing_k,
    if_pos rfl, Option.map_some']
  rfl

namespace Timdimm

/-- Nonnegativity of `x ^ 0.2` for every real `x`: for `x ≥ 0` this is
`rpow_nonneg`, and for `x < 0` the real power is
`exp (log x * 0.2) * cos (0.2 * π)`, whose cosine factor is nonnegative
because `0.2 * π` lies in the first quadrant. -/
theorem rpow_point_two_nonneg (x : ℝ) : 0 ≤ x ^ (0.2 : ℝ) := by
  rcases le_or_lt 0 x with hx | hx
  · exact Real.rpow_nonneg hx _
  · rw [Real.rpow_def_of_neg hx]
    refine mul_nonneg (Real.exp_pos _).le ?_
    apply Real.cos_nonneg_of_mem_Icc
    constructor
    · nlinarith [Real.pi_pos]
    · nlinarith [Real.pi_pos]

theorem radian_to_arcsec_nonneg : 0 ≤ radian_to_arcsec :=
  div_nonneg (by norm_num) Real.pi_pos.le

/-- Value of `seeing_from_k` at `sigma = 0`: zero. -/
theorem seeing_from_k_zero (aperture_diameter wavelength pixel_scale k : ℝ) :
    seeing_from_k 0 aperture_diameter wavelength pixel_scale k = 0 := by
  unfold seeing_from_k
  rw [zero_mul, zero_pow (by norm_num), zero_div,
    Real.zero_rpow (by norm_num), mul_zero, zero_mul]

/-- Monotonicity of `seeing_from_k` in `sigma` on `sigma ≥ 0` when `k > 0`. -/
theorem seeing_from_k_mono (aperture_diameter wavelength pixel_scale k : ℝ)
    (hk : 0 < k) (s1 s2 : ℝ) (h0 : 0 ≤ s1) (h12 : s1 ≤ s2) :
    seeing_from_k s1 aperture_diameter wavelength pixel_scale k ≤
      seeing_from_k s2 aperture_diameter wavelength pixel_scale k := by
  unfold seeing_from_k
  have hsq : (s1 * (pixel_scale * arcsec_to_radian)) ^ 2 ≤
      (s2 * (pixel_scale * arcsec_to_radian)) ^ 2 := by
    have h := mul_le_mul_of_nonneg_right (pow_le_pow_left₀ h0 h12 2)
      (sq_nonneg (pixel_scale * arcsec_to_radian))
    calc (s1 * (pixel_scale * arcsec_to_radian)) ^ 2
        = s1 ^ 2 * (pixel_scale * arcsec_to_radian) ^ 2 := by ring
      _ ≤ s2 ^ 2 * (pixel_scale * arcsec_to_radian) ^ 2 := h
      _ = (s2 * (pixel_scale * arcsec_to_radian)) ^ 2 := by ring
  have hdiv : (s1 * (pixel_scale * arcsec_to_radian)) ^ 2 / k ≤
      (s2 * (pixel_scale * arcsec_to_radian)) ^ 2 / k := by
    gcongr
  have hrpow : ((s1 * (pixel_scale * arcsec_to_radian)) ^ 2 / k) ^ (0.6 : ℝ) ≤
      ((s2 * (pixel_scale * arcsec_to_radian)) ^ 2 / k) ^ (0.6 : ℝ) :=
    Real.rpow_le_rpow (div_nonneg (sq_nonneg _) hk.le) hdiv (by norm_num)
  have hC : 0 ≤ 0.98 * (aperture_diameter / wavelength) ^ (0.2 : ℝ) :=
    mul_nonneg (by norm_num) (rpow_point_two_nonneg _)
  exact mul_le_mul_of_nonneg_right
    (mul_le_mul_of_nonneg_left hrpow hC) radian_to_arcsec_nonneg

end Timdimm

/-- C10: for any configuration (baseline, aperture diameter, wavelength,
pixel scale, direction) whose direction coefficient `k` is positive, the
`seeing` function returns exactly `0` at `sigma = 0` (no error), and is
monotonically non-decreasing in `sigma` on `sigma ≥ 0`. -/
theorem seeing_monotone (baseline aperture_diameter wavelength pixel_scale : ℝ)
    (direction : String) (k : ℝ)
    (hk : Timdimm.seeing_k direction (baseline / aperture_diameter) = some k)
    (hkpos : 0 < k) :
    Timdimm.seeing 0 baseline aperture_diameter wavelength pixel_scale
        direction = some 0 ∧
    ∀ s1 s2 : ℝ, 0 ≤ s1 → s1 ≤ s2 → ∀ v1 v2 : ℝ,
      Timdimm.seeing s1 baseline aperture_diameter wavelength pixel_scale
        direction = some v1 →
      Timdimm.seeing s2 baseline aperture_diameter wavelength pixel_scale
        direction = some v2 →
      v1 ≤ v2 := by
  have hval : ∀ s : ℝ,
      Timdimm.seeing s baseline aperture_diameter wavelength pixel_scale
        direction =
      some (Timdimm.seeing_from_k s aperture_diameter wavelength pixel_scale k) := by
    intro s
    rw [Timdimm.seeing, hk, Option.map_some']
  constructor
  · rw [hval 0, Timdimm.seeing_from_k_zero]
  · intro s1 s2 h0 h12 v1 v2 hv1 hv2
    rw [hval s1, Option.some_inj] at hv1
    rw [hval s2, Option.some_inj] at hv2
    rw [← hv1, ← hv2]
    exact Timdimm.seeing_from_k_mono aperture_diameter wavelength pixel_scale k
      hkpos s1 s2 h0 h12

/-- C10: witness for `seeing_monotone` at the configuration
`baseline = aperture_diameter = wavelength = pixel_scale = 1`,
longitudinal direction (`k = 0.364 × (1 − 0.532 − 0.024) > 0`),
instantiating monotonicity at `0 ≤ 1`. -/
theorem seeing_monotone_witness :
    Timdimm.seeing 0 1 1 1 1 "longitudinal" = some 0 ∧
    Timdimm.seeing_from_k 0 1 1 1 (Timdimm.k_longitudinal (1 / 1)) ≤
      Timdimm.seeing_from_k 1 1 1 1 (Timdimm.k_longitudinal (1 / 1)) := by
  have hk : Timdimm.seeing_k "longitudinal" ((1 : ℝ) / 1) =
      some (Timdimm.k_longitudinal (1 / 1)) := by
    rw [Timdimm.seeing_k, if_pos rfl]
  have hkpos : 0 < Timdimm.k_longitudinal ((1 : ℝ) / 1) := by
    rw [Timdimm.k_longitudinal]
    norm_num [Real.one_rpow]
  have hmain := seeing_monotone 1 1 1 1 "longitudinal" _ hk hkpos
  refine ⟨hmain.1, ?_⟩
  exact hmain.2 0 1 le_rfl zero_le_one _ _
    (by rw [Timdimm.seeing, hk, Option.map_some'])
    (by rw [Timdimm.seeing, hk, Option.map_some'])
